import Mathlib

/-!
Verification development for the saltext-proxmox cloud driver
(`src/saltext/proxmox/clouds/proxmox.py`).

The module is a thin, synchronous driver: every operation re-reads the
cluster inventory, issues REST calls against the Proxmox API, and either
returns a value or raises one of a small set of salt-cloud exceptions.
We embed it shallowly:

* remote I/O is represented by an explicit `Env` record holding the data
  the hypervisor would return (the inventory listing, the stream of
  `status/current` responses, per-vmid config dicts, node listing,
  storage content listing);
* each driver function is translated into a Lean function that returns
  the list of performed side effects (`Eff`, in order) together with an
  `Except Err` result, mirroring the Python control flow (early raises
  produce an `Except.error` with the effects performed so far);
* Python dicts appearing as data are association lists; `None` is
  `Option.none`; wall-clock polling is discretized to one poll per
  interval, so a loop bounded by `timeout` performs
  `⌈timeout / interval⌉` polls.
-/

/-- A VM resource record as returned by `GET cluster/resources` and used
by the driver (`vm["vmid"]`, `vm["name"]`, `vm["node"]`, `vm["type"]`,
`vm["status"]`). -/
structure VM where
  vmid : Nat
  name : String
  node : String
  vtype : String
  status : String
deriving DecidableEq, Repr

/-- Response of `GET nodes/{node}/{type}/{vmid}/status/current`: the
driver reads only `response["status"]`; `exitstatus` is carried to show
it is never consulted. -/
structure StatusPayload where
  status : String
  exitstatus : String
deriving DecidableEq, Repr

/-- One node entry of `GET nodes`; `status` is optional because the code
uses `location.get("status")`. -/
structure NodeInfo where
  node : String
  status : Option String
deriving DecidableEq, Repr

/-- One item of `GET nodes/{node}/storage/{storage}/content`. -/
structure ContentItem where
  volid : String
  content : String
deriving DecidableEq, Repr

/-- A Python value appearing in a kwargs/profile dict (only strings and
ints occur in the paths we model). -/
inductive Val where
  | s (v : String)
  | n (v : Nat)
deriving DecidableEq, Repr

/-- A Python dict with `Val` values, as an association list in insertion
order. -/
abbrev Dict := List (String × Val)

/-- Python `d.get(k)` for a kwargs dict: the last binding of a key wins,
matching Python dict update semantics. -/
def dictGet : Dict → String → Option Val
  | [], _ => none
  | (k', v) :: rest, k =>
    match dictGet rest k with
    | some r => some r
    | none => if k' = k then some v else none

/-- Render a `Val` the way a Python f-string would. -/
def valStr : Val → String
  | .s v => v
  | .n v => toString v

/-- Split a character list at every occurrence of `sep`, Python
`str.split(sep)` semantics: the empty string yields `[""]` and adjacent
separators yield empty segments. -/
def splitChars (sep : Char) : List Char → List (List Char)
  | [] => [[]]
  | c :: rest =>
    let r := splitChars sep rest
    if c = sep then [] :: r
    else
      match r with
      | h :: t => (c :: h) :: t
      | [] => [[c]]

/-- Python `s.split(sep)` for a one-character separator (the module only
splits on `","`, `"="`, `"."` and `"/"`). -/
def pySplit (s : String) (sep : Char) : List String :=
  (splitChars sep s.data).map String.mk

/-- The whitespace set of Python `str.strip()`. -/
def isPyWs (c : Char) : Bool :=
  decide (c = ' ' ∨ c = '\t' ∨ c = '\n' ∨ c = '\r' ∨ c = '\x0b' ∨ c = '\x0c')

/-- Python `s.strip()`: drop leading and trailing whitespace. -/
def pyStrip (s : String) : String :=
  String.mk (((s.data.dropWhile isPyWs).reverse.dropWhile isPyWs).reverse)

/-- Python `s.startswith(p)`. -/
def pyStartsWith (s p : String) : Bool :=
  p.data.isPrefixOf s.data

/-- Value of a string of decimal digits. -/
def digitsToNat (l : List Char) : Nat :=
  l.foldl (fun n c => n * 10 + (c.toNat - 48)) 0

/-- The salt-cloud exceptions raised by the module:
`SaltCloudSystemExit` (usage errors), `SaltCloudNotFound` (lookup
failures, carrying the looked-up key), `SaltCloudExecutionTimeout`
(polling deadline), and Python `KeyError` for a missing mandatory
profile key. -/
inductive Err where
  | systemExit (msg : String)
  | notFoundByName (name : String)
  | notFoundById (vmid : Option Val)
  | executionTimeout
  | keyError (k : String)
deriving DecidableEq, Repr

/-- A remote API call, one constructor per endpoint the module touches;
the fields are the pieces interpolated into the URL path plus the data
dict passed in the request body. -/
inductive ApiCall where
  | getClusterResources
  | getNodes
  | getStorageContent (node storage : String)
  | getConfig (node vtype : String) (vmid : Nat)
  | getStatusCurrent (node vtype : String) (vmid : Nat)
  | postCreate (node tech : String) (data : Dict)
  | postClone (node vtype : String) (vmid : Nat) (data : Dict)
  | putConfig (node vtype : String) (vmid : Nat) (data : Option Dict)
  | deleteVm (node vtype : String) (vmid : Nat) (data : Option Dict)
  | postStatus (node vtype : String) (vmid : Nat) (status : String) (data : Option Dict)
deriving DecidableEq, Repr

/-- An observable side effect of a driver function: a remote API call, a
`time.sleep`, a `cloud.fire_event`, or the external `cloud.bootstrap`
collaborator. -/
inductive Eff where
  | query (c : ApiCall)
  | sleep (deciseconds : Nat)
  | fireEvent (tag : String)
  | bootstrap
deriving DecidableEq, Repr

/-- The remote state a run interacts with: the inventory returned by
`GET cluster/resources`, the node listing, the `status/current` response
stream (k-th poll of the polled VM), the config dict per vmid, and the
storage content per (node, storage). -/
structure Env where
  inventory : List VM
  nodes : List NodeInfo
  statusResponses : Nat → StatusPayload
  configs : Nat → List (String × String)
  storageContent : String → String → List ContentItem

/-- The linear scan inside `_get_vm_by_name`: first record whose `name`
field equals the argument. -/
def findFirstByName : List VM → String → Option VM
  | [], _ => none
  | vm :: rest, name => if vm.name = name then some vm else findFirstByName rest name

/-- The linear scan inside `_get_vm_by_id`: first record whose `vmid`
equals the argument; a `None` or string argument matches no record
(Python `int == None` and `int == str` are `False`). -/
def findFirstById : List VM → Option Val → Option VM
  | [], _ => none
  | vm :: rest, vmid =>
    if vmid = some (.n vm.vmid) then some vm else findFirstById rest vmid

/-- Source `_get_vm_by_name(name)`: queries `cluster/resources`, returns the
first match or raises `SaltCloudNotFound`. -/
def get_vm_by_name (env : Env) (name : String) : List Eff × Except Err VM :=
  ([.query .getClusterResources],
    match findFirstByName env.inventory name with
    | some vm => .ok vm
    | none => .error (.notFoundByName name))

/-- Source `_get_vm_by_id(vmid)`: queries `cluster/resources`, returns the
first match or raises `SaltCloudNotFound`. -/
def get_vm_by_id (env : Env) (vmid : Option Val) : List Eff × Except Err VM :=
  ([.query .getClusterResources],
    match findFirstById env.inventory vmid with
    | some vm => .ok vm
    | none => .error (.notFoundById vmid))

/-- Equality of `Except` results is decidable componentwise (used to
evaluate the concrete runs below). -/
instance {ε α : Type} [DecidableEq ε] [DecidableEq α] : DecidableEq (Except ε α) :=
  fun x y =>
    match x, y with
    | .ok a, .ok b =>
      if h : a = b then .isTrue (by rw [h]) else .isFalse (by simp [h])
    | .error a, .error b =>
      if h : a = b then .isTrue (by rw [h]) else .isFalse (by simp [h])
    | .ok _, .error _ => .isFalse (by simp)
    | .error _, .ok _ => .isFalse (by simp)

/-- Number of iterations of the `while time.time() < start_time + timeout`
loop of `_wait_for_vm_status` under the discretization that poll `k`
happens at wall-clock offset `k * interval`: polls run while
`k * interval < timeout`, i.e. the ceiling of `timeout / interval` many
times. Durations are measured in tenths of a second, which represents
the module's two float constants exactly: the default `timeout=300`
(seconds) is `3000` and the default `interval=0.2` is `2`; with those
defaults 1500 polls fit in the window. (`interval = 0` would busy-loop
in Python; it is normalized to an immediate timeout here and never
occurs in the module.) -/
def pollCount (timeout interval : Nat) : Nat :=
  if interval = 0 then 0 else (timeout + interval - 1) / interval

/-- The polling loop body of `_wait_for_vm_status`: query
`status/current`; if the reported status equals the awaited one return
`True`; otherwise sleep for `interval` and iterate, raising
`SaltCloudExecutionTimeout` once the fuel (the number of polls the
timeout window admits) runs out. `k` indexes into the response stream. -/
def wait_loop (resp : Nat → StatusPayload) (vm : VM) (want : String)
    (interval : Nat) : Nat → Nat → List Eff × Except Err Bool
  | 0, _ => ([], .error .executionTimeout)
  | fuel + 1, k =>
    if (resp k).status = want then
      ([.query (.getStatusCurrent vm.node vm.vtype vm.vmid)], .ok true)
    else
      let r := wait_loop resp vm want interval fuel (k + 1)
      (.query (.getStatusCurrent vm.node vm.vtype vm.vmid) :: .sleep interval :: r.1, r.2)

/-- Source `_wait_for_vm_status(name, status, timeout=300, interval=0.2)`:
resolves the VM by name, then polls `status/current` until the reported
status equals `status` (returning `True`) or the timeout window is
exhausted (raising `SaltCloudExecutionTimeout`). -/
def wait_for_vm_status (env : Env) (name status : String)
    (timeout interval : Nat) : List Eff × Except Err Bool :=
  let g := get_vm_by_name env name
  match g.2 with
  | .error e => (g.1, .error e)
  | .ok vm =>
    let r := wait_loop env.statusResponses vm status interval (pollCount timeout interval) 0
    (g.1 ++ r.1, r.2)

/-- Source `_set_vm_status(name, status, kwargs)`: resolves the VM by name and
posts `status/{status}` with the kwargs dict. -/
def set_vm_status (env : Env) (name status : String) (kwargs : Option Dict) :
    List Eff × Except Err Unit :=
  let g := get_vm_by_name env name
  match g.2 with
  | .error e => (g.1, .error e)
  | .ok vm =>
    (g.1 ++ [.query (.postStatus vm.node vm.vtype vm.vmid status kwargs)], .ok ())

/-- The dict returned by the `start`/`stop`/`shutdown`/`reconfigure`
actions, e.g. `{"success": True, "state": "running", "action": "start"}`
(`state` is absent for `reconfigure`). -/
structure OpResult where
  success : Bool
  state : Option String
  action : String
deriving DecidableEq, Repr

/-- Source `start(call, name, kwargs)`: requires action-style invocation, then
posts `status/start` and polls until the VM reports `running`. -/
def start (call : Option String) (name : String) (kwargs : Option Dict)
    (env : Env) : List Eff × Except Err OpResult :=
  if call ≠ some "action" then
    ([], .error (.systemExit "The start action must be called with -a or --action."))
  else
    let s := set_vm_status env name "start" kwargs
    match s.2 with
    | .error e => (s.1, .error e)
    | .ok _ =>
      let w := wait_for_vm_status env name "running" 3000 2
      match w.2 with
      | .error e => (s.1 ++ w.1, .error e)
      | .ok _ => (s.1 ++ w.1, .ok ⟨true, some "running", "start"⟩)

/-- Source `stop(call, name, kwargs)`: requires action-style invocation, then
posts `status/stop` and polls until the VM reports `stopped`. -/
def stop (call : Option String) (name : String) (kwargs : Option Dict)
    (env : Env) : List Eff × Except Err OpResult :=
  if call ≠ some "action" then
    ([], .error (.systemExit "The stop action must be called with -a or --action."))
  else
    let s := set_vm_status env name "stop" kwargs
    match s.2 with
    | .error e => (s.1, .error e)
    | .ok _ =>
      let w := wait_for_vm_status env name "stopped" 3000 2
      match w.2 with
      | .error e => (s.1 ++ w.1, .error e)
      | .ok _ => (s.1 ++ w.1, .ok ⟨true, some "stopped", "stop"⟩)

/-- Source `shutdown(call, name, kwargs)`: requires action-style invocation,
then posts `status/shutdown` and polls until the VM reports `stopped`. -/
def shutdown (call : Option String) (name : String) (kwargs : Option Dict)
    (env : Env) : List Eff × Except Err OpResult :=
  if call ≠ some "action" then
    ([], .error (.systemExit "The shutdown action must be called with -a or --action."))
  else
    let s := set_vm_status env name "shutdown" kwargs
    match s.2 with
    | .error e => (s.1, .error e)
    | .ok _ =>
      let w := wait_for_vm_status env name "stopped" 3000 2
      match w.2 with
      | .error e => (s.1 ++ w.1, .error e)
      | .ok _ => (s.1 ++ w.1, .ok ⟨true, some "stopped", "shutdown"⟩)

/-- Source `destroy(call, name, kwargs)`: rejects an explicit function-style
invocation, otherwise fires the `destroying` event, resolves the VM by
name, issues the DELETE call and fires the `destroyed` event (the Python
function returns `None`). -/
def destroy (call : Option String) (name : String) (kwargs : Option Dict)
    (env : Env) : List Eff × Except Err Unit :=
  if call = some "function" then
    ([], .error (.systemExit "The destroy action must be called with -d, --destroy, -a or --action."))
  else
    let g := get_vm_by_name env name
    match g.2 with
    | .error e => (.fireEvent "destroying instance" :: g.1, .error e)
    | .ok vm =>
      (.fireEvent "destroying instance" :: g.1
          ++ [.query (.deleteVm vm.node vm.vtype vm.vmid kwargs),
              .fireEvent "destroyed instance"], .ok ())

/-- Source `reconfigure(call, name, kwargs)`: rejects an explicit
function-style invocation, otherwise resolves the VM by name and issues
the PUT config call. -/
def reconfigure (call : Option String) (name : String) (kwargs : Option Dict)
    (env : Env) : List Eff × Except Err OpResult :=
  if call = some "function" then
    ([], .error (.systemExit "The reconfigure action must be called with -d, --destroy, -a or --action."))
  else
    let g := get_vm_by_name env name
    match g.2 with
    | .error e => (g.1, .error e)
    | .ok vm =>
      (g.1 ++ [.query (.putConfig vm.node vm.vtype vm.vmid kwargs)],
        .ok ⟨true, none, "reconfigure"⟩)

/-- Source `clone(call, kwargs)`: requires function-style invocation, defaults
a non-dict kwargs to `{}`, resolves the source VM by its `vmid` entry
and issues the clone POST; the task-waiting block in the source is
commented out, so the function returns as soon as the POST is issued. -/
def clone (call : Option String) (kwargs : Option Dict) (env : Env) :
    List Eff × Except Err Unit :=
  if call ≠ some "function" then
    ([], .error (.systemExit "The clone function must be called with -f or --function."))
  else
    let kw := kwargs.getD []
    let vmid := dictGet kw "vmid"
    let g := get_vm_by_id env vmid
    match g.2 with
    | .error e => (g.1, .error e)
    | .ok vm =>
      (g.1 ++ [.query (.postClone vm.node vm.vtype vm.vmid kw)], .ok ())

/-- The value stored per name by `list_nodes_full`: the resource record
together with the config dict fetched for it (`ret[name] = vm;
ret[name]["config"] = config`). -/
abbrev FullEntry := VM × List (String × String)

/-- Python dict assignment `m[k] = v` on an association list: overwrite
the value in place when the key exists, else append. -/
def insertOverwrite (m : List (String × FullEntry)) (k : String) (v : FullEntry) :
    List (String × FullEntry) :=
  match m with
  | [] => [(k, v)]
  | (k', v') :: rest =>
    if k' = k then (k', v) :: rest else (k', v') :: insertOverwrite rest k v

/-- First binding of `k` in an association list (dict keys are unique
after `insertOverwrite`, so this is dict lookup / `.items()` scanning). -/
def assocFind (m : List (String × FullEntry)) (k : String) : Option FullEntry :=
  (m.find? (fun kv => kv.1 == k)).map (fun kv => kv.2)

/-- The loop of `list_nodes_full`: walk the inventory in listing order,
fetch each VM's config, and assign `ret[vm["name"]]`, so a later VM with
a duplicated name overwrites the earlier entry. -/
def lnf_build (env : Env) : List VM → List (String × FullEntry) →
    List Eff × List (String × FullEntry)
  | [], acc => ([], acc)
  | vm :: rest, acc =>
    let r := lnf_build env rest (insertOverwrite acc vm.name (vm, env.configs vm.vmid))
    (.query (.getConfig vm.node vm.vtype vm.vmid) :: r.1, r.2)

/-- Source `list_nodes_full(call)`: rejects action-style invocation, queries
`cluster/resources`, and builds the name-keyed dict of full records. -/
def list_nodes_full (call : Option String) (env : Env) :
    List Eff × Except Err (List (String × FullEntry)) :=
  if call = some "action" then
    ([], .error (.systemExit "The list_nodes_full function must be called with -f or --function."))
  else
    let b := lnf_build env env.inventory []
    (.query .getClusterResources :: b.1, .ok b.2)

/-- Source `show_instance(call, name)`: requires action-style invocation, scans
the `list_nodes_full()` items for the requested name and raises
`SaltCloudNotFound` when absent. -/
def show_instance (call : Option String) (name : String) (env : Env) :
    List Eff × Except Err FullEntry :=
  if call ≠ some "action" then
    ([], .error (.systemExit "The show_instance action must be called with -a or --action."))
  else
    let l := list_nodes_full none env
    match l.2 with
    | .error e => (l.1, .error e)
    | .ok m =>
      match assocFind m name with
      | some v => (l.1, .ok v)
      | none => (l.1, .error (.notFoundByName name))

/-- The filter loop of `avail_locations`: keep (in listing order) the
nodes whose `status` equals `"online"`, keyed by node name; others are
only logged. -/
def onlineNodes : List NodeInfo → List (String × NodeInfo)
  | [] => []
  | loc :: rest =>
    if loc.status = some "online" then (loc.node, loc) :: onlineNodes rest
    else onlineNodes rest

/-- Source `avail_locations(call)`: rejects action-style invocation, queries
`GET nodes` and keeps only the online ones. -/
def avail_locations (call : Option String) (env : Env) :
    List Eff × Except Err (List (String × NodeInfo)) :=
  if call = some "action" then
    ([], .error (.systemExit "The avail_locations function must be called with -f or --function, or with the --list-locations option"))
  else
    ([.query .getNodes], .ok (onlineNodes env.nodes))

/-- The loop of `avail_images`: for every available location (key of
`avail_locations()`), list the storage content and key every returned
item by its `volid` (the source carries a TODO noting that filtering to
image content types is not implemented). -/
def avail_images_build (env : Env) (storage : String) :
    List (String × NodeInfo) → List Eff × List (String × List (String × ContentItem))
  | [] => ([], [])
  | (locName, _) :: rest =>
    let items := env.storageContent locName storage
    let r := avail_images_build env storage rest
    (.query (.getStorageContent locName storage) :: r.1,
      (locName, items.map (fun it => (it.volid, it))) :: r.2)

/-- Source `avail_images(call, kwargs)`: rejects action-style invocation,
defaults the storage name to `"local"`, and returns per online location
every content item of that storage keyed by volid. -/
def avail_images (call : Option String) (kwargs : Option Dict) (env : Env) :
    List Eff × Except Err (List (String × List (String × ContentItem))) :=
  if call = some "action" then
    ([], .error (.systemExit "The avail_images function must be called with -f or --function, or with the --list-images option"))
  else
    let kw := kwargs.getD []
    let storage := match dictGet kw "storage" with
      | some v => valStr v
      | none => "local"
    let al := avail_locations none env
    match al.2 with
    | .error e => (al.1, .error e)
    | .ok locs =>
      let b := avail_images_build env storage locs
      (al.1 ++ b.1, .ok b.2)

/-- The profile dict `vm_` passed to `create`: its name, the optional
`technology` value, and the optional `clone` / `create`
sub-configurations (the remaining keys the source reads, such as
`ssh_password`, have no observable effect in this model). -/
structure Profile where
  name : String
  technology : Option String
  clone_opts : Option Dict
  create_opts : Option Dict

/-- Python truthiness of `vm_.get("clone")`: present and non-empty. -/
def truthyDict : Option Dict → Bool
  | some l => !l.isEmpty
  | none => false

/-- How the f-string `f"nodes/:/{type}"` renders `vm_.get("technology")`
(a missing key renders as the string `None`). -/
def techStr : Option String → String
  | some t => t
  | none => "None"

/-- Source `create(vm_)`: fires the `creating` event; if a non-empty `clone`
sub-configuration is present delegates to `clone()`, otherwise POSTs the
`create` sub-configuration to the creation endpoint (a missing
`create`/`node` key raises `KeyError`); then invokes the `start` action
once, runs the external bootstrap collaborator, and merges in
`show_instance` before firing the `created` event. Errors of any step
propagate. The Python return value is the bootstrap result dict, which
is opaque here, so the model returns `Unit`. -/
def create (p : Profile) (env : Env) : List Eff × Except Err Unit :=
  let t0 : List Eff := [.fireEvent "starting create"]
  let created :=
    if truthyDict p.clone_opts then
      let c := clone (some "function") p.clone_opts env
      (c.1, c.2)
    else
      match p.create_opts with
      | none => ([], .error (.keyError "create"))
      | some copts =>
        match dictGet copts "node" with
        | none => ([], .error (.keyError "node"))
        | some nodev =>
          ([.query (.postCreate (valStr nodev) (techStr p.technology) copts)], .ok ())
  match created.2 with
  | .error e => (t0 ++ created.1, .error e)
  | .ok _ =>
    let s := start (some "action") p.name none env
    match s.2 with
    | .error e => (t0 ++ created.1 ++ s.1, .error e)
    | .ok _ =>
      let si := show_instance (some "action") p.name env
      match si.2 with
      | .error e => (t0 ++ created.1 ++ s.1 ++ [.bootstrap] ++ si.1, .error e)
      | .ok _ =>
        (t0 ++ created.1 ++ s.1 ++ [.bootstrap] ++ si.1
            ++ [.fireEvent "created instance"], .ok ())

/-- Source `_stringlist_to_dictionary(input_string)`:
`dict(item.strip().split("=") for item in input_string.split(",") if item)`.
Empty comma segments are dropped before stripping; a stripped segment
that does not split into exactly a key and a value makes the `dict`
constructor raise `ValueError` (modelled as `Except.error`). Duplicate
keys are kept in order; `pyDictGet` below applies the last-wins dict
semantics. -/
def stringlist_to_dictionary (input_string : String) :
    Except Unit (List (String × String)) :=
  let items := (pySplit input_string ',').filter (fun it => it ≠ "")
  let rec go : List String → Except Unit (List (String × String))
    | [] => .ok []
    | it :: rest =>
      match pySplit (pyStrip it) '=' with
      | [k, v] =>
        match go rest with
        | .ok tail => .ok ((k, v) :: tail)
        | .error e => .error e
      | _ => .error ()
  go items

/-- Python `d.get(k)` on the dict built by `_stringlist_to_dictionary`: the
last binding of a duplicated key wins. -/
def pyDictGet : List (String × String) → String → Option String
  | [], _ => none
  | (k', v) :: rest, k =>
    match pyDictGet rest k with
    | some r => some r
    | none => if k' = k then some v else none

/-- An IPv4 address as four octets. -/
structure Ipv4 where
  a : Nat
  b : Nat
  c : Nat
  d : Nat
deriving DecidableEq, Repr

/-- One octet per `ipaddress._parse_octet`: 1-3 ASCII digits, no
leading zero unless the octet is exactly `0`, value at most 255. -/
def parseOctet (o : String) : Except Unit Nat :=
  if o.data = [] then .error ()
  else if !(o.data.all Char.isDigit) then .error ()
  else if o.data.length > 3 then .error ()
  else if o.data.length > 1 ∧ o.data.head? = some '0' then .error ()
  else
    let v := digitsToNat o.data
    if v ≤ 255 then .ok v else .error ()

/-- Dotted-quad parsing per `ipaddress._ip_int_from_string` for IPv4:
exactly four octets. Strings that are not of this shape (including any
IPv6 literal, which cannot occur in the `ip=` entries this driver
handles) are rejected. -/
def parseIpv4 (s : String) : Except Unit Ipv4 :=
  match pySplit s '.' with
  | [oa, ob, oc, od] =>
    match parseOctet oa, parseOctet ob, parseOctet oc, parseOctet od with
    | .ok va, .ok vb, .ok vc, .ok vd => .ok ⟨va, vb, vc, vd⟩
    | _, _, _, _ => .error ()
  | _ => .error ()

/-- The 32-bit integer of an address. -/
def ipv4Int (ip : Ipv4) : Nat :=
  ip.a * 16777216 + ip.b * 65536 + ip.c * 256 + ip.d

/-- The net part after the `/` per `ipaddress._make_netmask`: either a
decimal prefix length at most 32, or a dotted quad that is a valid
netmask (contiguous high ones) or hostmask (contiguous low ones). -/
def parseMask (m : String) : Except Unit Nat :=
  if m.data ≠ [] ∧ m.data.all Char.isDigit then
    (let v := digitsToNat m.data
     if v ≤ 32 then .ok v else .error ())
  else
    match parseIpv4 m with
    | .error _ => .error ()
    | .ok ip =>
      let x := ipv4Int ip
      match (List.range 33).find? (fun p => x = 4294967296 - 2 ^ (32 - p)) with
      | some p => .ok p
      | none =>
        match (List.range 33).find? (fun p => x = 2 ^ (32 - p) - 1) with
        | some p => .ok p
        | none => .error ()

/-- Python `ipaddress.ip_interface(value).ip` for the (optional) string taken
from the `ip=` entry: `None` raises `ValueError`; at most one `/` is
permitted; the address part must be a dotted quad and the optional mask
part a valid prefix or mask. Only the address is returned — the driver
discards the network. -/
def ip_interface (s : Option String) : Except Unit Ipv4 :=
  match s with
  | none => .error ()
  | some str =>
    match pySplit str '/' with
    | [addr] => parseIpv4 addr
    | [addr, mask] =>
      match parseIpv4 addr, parseMask mask with
      | .ok ip, .ok _ => .ok ip
      | _, _ => .error ()
    | _ => .error ()

/-- Python `IPv4Address.is_private`: membership in the IANA private-use and
special-purpose ranges used by `ipaddress._private_networks`
(0.0.0.0/8, 10/8, 127/8, 169.254/16, 172.16/12, 192.0.0/24, 192.0.2/24,
192.168/16, 198.18/15, 198.51.100/24, 203.0.113/24, 240/4). -/
def isPrivateIpv4 (ip : Ipv4) : Bool :=
  ip.a = 0 ∨ ip.a = 10 ∨ ip.a = 127 ∨
  (ip.a = 169 ∧ ip.b = 254) ∨
  (ip.a = 172 ∧ 16 ≤ ip.b ∧ ip.b ≤ 31) ∨
  (ip.a = 192 ∧ ip.b = 0 ∧ ip.c = 0) ∨
  (ip.a = 192 ∧ ip.b = 0 ∧ ip.c = 2) ∨
  (ip.a = 192 ∧ ip.b = 168) ∨
  (ip.a = 198 ∧ (ip.b = 18 ∨ ip.b = 19)) ∨
  (ip.a = 198 ∧ ip.b = 51 ∧ ip.c = 100) ∨
  (ip.a = 203 ∧ ip.b = 0 ∧ ip.c = 113) ∨
  240 ≤ ip.a

/-- Python `str(ip)` for an `IPv4Address`. -/
def ipv4Str (ip : Ipv4) : String :=
  toString ip.a ++ "." ++ toString ip.b ++ "." ++ toString ip.c ++ "." ++ toString ip.d

/-- The `ip_configs` comprehension of `_parse_ips`: values of
`net`-prefixed keys for `lxc` configs, `ipconfig`-prefixed keys
otherwise, in dict (insertion) order. -/
def scan_values (vm_config : List (String × String)) (vm_type : String) :
    List String :=
  if vm_type = "lxc" then
    (vm_config.filter (fun kv => pyStartsWith kv.1 "net")).map (fun kv => kv.2)
  else
    (vm_config.filter (fun kv => pyStartsWith kv.1 "ipconfig")).map (fun kv => kv.2)

/-- The per-entry loop of `_parse_ips`. The `bound` argument models the
Python local `ip_with_netmask`: `none` while it has never been assigned.
When `_stringlist_to_dictionary` raises on an entry the `except` clause
logs `ip_with_netmask` — if the local is still unbound this raises
`UnboundLocalError` to the caller (modelled as `.error ()`); otherwise
the entry is logged with the stale value and skipped. An entry whose
`ip` value fails address parsing is logged and skipped; a parsed address
lands in the private or public list by `is_private`. -/
def parse_loop : List String → List String → List String →
    Option (Option String) → Except Unit (List String × List String)
  | [], priv, pub, _ => .ok (priv, pub)
  | v :: rest, priv, pub, bound =>
    match stringlist_to_dictionary v with
    | .error _ =>
      match bound with
      | none => .error ()
      | some b => parse_loop rest priv pub (some b)
    | .ok items =>
      let ipwn := pyDictGet items "ip"
      match ip_interface ipwn with
      | .error _ => parse_loop rest priv pub (some ipwn)
      | .ok ip =>
        if isPrivateIpv4 ip then
          parse_loop rest (priv ++ [ipv4Str ip]) pub (some ipwn)
        else
          parse_loop rest priv (pub ++ [ipv4Str ip]) (some ipwn)

/-- Source `_parse_ips(vm_config, vm_type)`: returns
`(private_ips, public_ips)`, or the escaping `UnboundLocalError`. -/
def parse_ips (vm_config : List (String × String)) (vm_type : String) :
    Except Unit (List String × List String) :=
  parse_loop (scan_values vm_config vm_type) [] [] none

/-- Whether an effect is the direct VM-creation endpoint call. -/
def isCreateCall : Eff → Bool
  | .query (.postCreate _ _ _) => true
  | _ => false

/-- Whether the very first scanned entry makes
`_stringlist_to_dictionary` raise, which is exactly the condition for
`_parse_ips` to die with `UnboundLocalError`. -/
def firstScanBad : List String → Bool
  | [] => false
  | v :: _ =>
    match stringlist_to_dictionary v with
    | .ok _ => false
    | .error _ => true

/-- Whether `_parse_ips` raises (the escaping `UnboundLocalError`). -/
def parseIpsRaises (vm_config : List (String × String)) (vm_type : String) : Bool :=
  match parse_ips vm_config vm_type with
  | .error _ => true
  | .ok _ => false

/-- An environment with no VMs, no nodes and empty responses, used for
concrete runs that must fail to resolve anything. -/
def envEmpty : Env := ⟨[], [], fun _ => ⟨"", ""⟩, fun _ => [], fun _ _ => []⟩

/-- Environment for the C1 runs: one VM and a `status/current` stream
that immediately reports `stopped` with an exit status containing
`failed`. -/
def envC1 : Env :=
  ⟨[⟨101, "vm1", "node1", "qemu", "running"⟩], [],
    fun _ => ⟨"stopped", "VM quit/powerdown failed - got timeout"⟩,
    fun _ => [], fun _ _ => []⟩

/-- Environment whose status stream immediately reports `running`. -/
def envC1w : Env :=
  ⟨[⟨101, "vm1", "node1", "qemu", "running"⟩], [],
    fun _ => ⟨"running", ""⟩, fun _ => [], fun _ _ => []⟩

/-- The non-clone profile used for the C2 runs (the values of the unit
test `test_create`). -/
def pC2 : Profile :=
  ⟨"my-vm", some "qemu", none, some [("vmid", .n 123), ("node", .s "proxmox-node1")]⟩

/-- A non-clone profile without a `technology` key. -/
def pC2w : Profile :=
  ⟨"w-vm", none, none, some [("node", .s "n2")]⟩

/-- Environment for the C3 run: the clone source VM exists. -/
def envC3 : Env :=
  ⟨[⟨123, "src-vm", "node1", "lxc", "stopped"⟩], [],
    fun _ => ⟨"", ""⟩, fun _ => [], fun _ _ => []⟩

/-- The kwargs of the C3 clone run (the values of the unit test
`test_clone`). -/
def kwC3 : Dict := [("vmid", .n 123), ("newid", .n 456)]

/-- The storage content listing of the unit test `test_avail_images`:
three image-type items and one backup item. -/
def itemsC4 : List ContentItem :=
  [⟨"other_storage:vztmpl/ubuntu-20.04-standard_20.04-1_amd64.tar.gz", "vztmpl"⟩,
   ⟨"other_storage:vm-201-disk-0", "images"⟩,
   ⟨"other_storage:iso/ubuntu-22.04.2-live-server-amd64.iso", "iso"⟩,
   ⟨"other_storage:backup/template-backup.tar.gz", "backup"⟩]

/-- Environment for the C4 run: one online node whose default storage
returns `itemsC4`. -/
def envC4 : Env :=
  ⟨[], [⟨"node1", some "online"⟩, ⟨"node2", some "offline"⟩],
    fun _ => ⟨"", ""⟩, fun _ => [], fun _ _ => itemsC4⟩

/-- A clone-style profile (non-empty `clone` sub-configuration). -/
def pC7 : Profile := ⟨"c-vm", some "lxc", some [("vmid", .n 7)], none⟩

/-- Environment for the C9 proceed-without-call runs: one VM present. -/
def envC9 : Env :=
  ⟨[⟨100, "d-vm", "n1", "lxc", "running"⟩], [],
    fun _ => ⟨"", ""⟩, fun _ => [], fun _ _ => []⟩

/-- Environment with two VMs sharing one name but different vmids. -/
def envDup : Env :=
  ⟨[⟨100, "dup", "n1", "lxc", "running"⟩, ⟨200, "dup", "n2", "qemu", "stopped"⟩], [],
    fun _ => ⟨"", ""⟩, fun _ => [], fun _ _ => []⟩

/-- The lxc config of the C8 runs (the values of the unit test
`test__parse_ips_when_lxc_config`). -/
def lxcCfg : List (String × String) :=
  [("net0", "name=eth0,bridge=vmbr0,hwaddr=BA:F9:3B:F7:9E:A7,ip=192.168.1.10/24,type=veth"),
   ("net1", "name=eth1,bridge=vmbr0,hwaddr=B2:4B:C6:39:1D:10,ip=200.200.200.200/24,type=veth")]

/-- The qemu config of the C8 runs (the values of the unit test
`test__parse_ips_when_qemu_config`). -/
def qemuCfg : List (String × String) :=
  [("ipconfig0", "ip=192.168.1.10/24,gw=192.168.1.1"),
   ("ipconfig1", "ip=200.200.200.200/24,gw=200.200.200.1")]

/-- The invalid-address lxc config of the C8 runs (the values of the
unit test `test__parse_ips_when_invalid_config`). -/
def invalidCfg : List (String × String) :=
  [("net0", "name=eth0,bridge=vmbr0,hwaddr=BA:F9:3B:F7:9E:A7,ip=192.168.500.2/24,type=veth")]

lemma findFirstByName_eq_find? (l : List VM) (name : String) :
    findFirstByName l name = l.find? (fun vm => vm.name == name) := by
  induction l with
  | nil => rfl
  | cons vm rest ih =>
    simp only [findFirstByName, List.find?]
    by_cases h : vm.name = name
    · simp [h]
    · simp only [h, if_false]
      have hb : (vm.name == name) = false := by
        simp [h]
      rw [hb]
      exact ih

/-- Claim C5: for every VM inventory listing, lookup by name queries the
cluster inventory once and returns the first entry in listing order
whose name field equals the requested name (so duplicates resolve to the
earliest), and raises `SaltCloudNotFound` when no entry matches. -/
theorem c5_get_vm_by_name_first (env : Env) (name : String) :
    get_vm_by_name env name =
      ([.query .getClusterResources],
        match env.inventory.find? (fun vm => vm.name == name) with
        | some vm => .ok vm
        | none => .error (.notFoundByName name)) := by
  unfold get_vm_by_name
  rw [findFirstByName_eq_find?]

lemma wait_loop_timeout (resp : Nat → StatusPayload) (vm : VM) (want : String)
    (interval : Nat) :
    ∀ fuel k, (∀ j, j < fuel → (resp (k + j)).status ≠ want) →
      (wait_loop resp vm want interval fuel k).2 = .error .executionTimeout := by
  intro fuel
  induction fuel with
  | zero => intro k _; rfl
  | succ n ih =>
    intro k h
    have h0 : (resp k).status ≠ want := by
      have := h 0 (Nat.succ_pos n)
      simpa using this
    simp only [wait_loop, h0, if_false]
    have := ih (k + 1) (fun j hj => by
      have := h (j + 1) (Nat.succ_lt_succ hj)
      simpa [Nat.add_assoc, Nat.add_comm 1 j] using this)
    simpa using this

lemma wait_loop_hit (resp : Nat → StatusPayload) (vm : VM) (want : String)
    (interval : Nat) :
    ∀ fuel k j, j < fuel → (resp (k + j)).status = want →
      (wait_loop resp vm want interval fuel k).2 = .ok true := by
  intro fuel
  induction fuel with
  | zero => intro k j hj; omega
  | succ n ih =>
    intro k j hj hhit
    by_cases h0 : (resp k).status = want
    · simp [wait_loop, h0]
    · simp only [wait_loop, h0, if_false]
      cases j with
      | zero => simp at hhit; exact absurd hhit h0
      | succ m =>
        have := ih (k + 1) m (Nat.lt_of_succ_lt_succ hj) (by
          simpa [Nat.add_assoc, Nat.add_comm 1 m] using hhit)
        simpa using this

/-- Claim C1 (amended): for every sequence of status payloads, the
polling wait operation resolves the VM by name and then repeatedly
issues a VM `status/current` query at a fixed interval (default 0.2s,
i.e. 2 deciseconds) until the reported status equals the awaited status
argument or the wall-clock timeout (default 300s, i.e. 3000
deciseconds, admitting `pollCount timeout interval` polls) elapses; on
timeout it raises `SaltCloudExecutionTimeout`, and on the first payload
whose status matches it returns `True` to the caller — the payload's
exit status is never consulted and the payload itself is not returned. -/
theorem c1_wait_polls_until_status_or_timeout :
    (∀ (env : Env) (name want : String) (timeout interval : Nat),
        (∀ j, j < pollCount timeout interval → (env.statusResponses j).status ≠ want) →
        (wait_for_vm_status env name want timeout interval).2 =
          (match findFirstByName env.inventory name with
           | some _ => .error .executionTimeout
           | none => .error (.notFoundByName name)))
    ∧ (∀ (env : Env) (name want : String) (timeout interval : Nat) (j : Nat) (vm : VM),
        findFirstByName env.inventory name = some vm →
        j < pollCount timeout interval →
        (env.statusResponses j).status = want →
        (wait_for_vm_status env name want timeout interval).2 = .ok true) := by
  constructor
  · intro env name want timeout interval h
    unfold wait_for_vm_status get_vm_by_name
    cases hf : findFirstByName env.inventory name with
    | none => simp
    | some vm =>
      simp only []
      have := wait_loop_timeout env.statusResponses vm want interval
        (pollCount timeout interval) 0 (fun j hj => by simpa using h j hj)
      simpa using this
  · intro env name want timeout interval j vm hf hj hhit
    unfold wait_for_vm_status get_vm_by_name
    rw [hf]
    simp only []
    have := wait_loop_hit env.statusResponses vm want interval
      (pollCount timeout interval) 0 j hj (by simpa using hhit)
    simpa using this

/-- Claim C1, counterexample to the claim as stated: a status stream
whose very first payload is terminal (`stopped`) with an exit status
containing `failed` makes the polling wait operation return `True` —
no `SystemExit`-class error carrying the exit status text is raised,
and the status payload is not returned to the caller. -/
theorem c1_counterexample :
    (wait_for_vm_status envC1 "vm1" "stopped" 3000 2).2 = .ok true := by decide

/-- Witness for `c1_wait_polls_until_status_or_timeout` at the default
timeout and interval with a stream that reports `running` at once. -/
theorem c1_wait_polls_until_status_or_timeout_witness :
    (wait_for_vm_status envC1w "vm1" "running" 3000 2).2 = .ok true :=
  c1_wait_polls_until_status_or_timeout.2 envC1w "vm1" "running" 3000 2 0
    ⟨101, "vm1", "node1", "qemu", "running"⟩ (by decide) (by decide) (by decide)

/-- Claim C2 (amended): after a non-clone create fires the `creating`
event and issues the creation call, it invokes the `start` action
exactly once — without waiting on any task between the creation call
and the start attempt; when the inventory has not yet propagated the
new VM, the single start attempt's name resolution fails and the
`SaltCloudNotFound` error propagates immediately out of `create`, with
no retries and no backoff sleeps, before the SSH-bootstrap collaborator
is reached. -/
theorem c2_create_starts_once_no_retry (env : Env) (p : Profile) (copts : Dict)
    (nodev : Val) (h1 : truthyDict p.clone_opts = false)
    (h2 : p.create_opts = some copts) (h3 : dictGet copts "node" = some nodev)
    (h4 : findFirstByName env.inventory p.name = none) :
    create p env =
      ([.fireEvent "starting create",
        .query (.postCreate (valStr nodev) (techStr p.technology) copts),
        .query .getClusterResources],
        .error (.notFoundByName p.name)) := by
  unfold create start set_vm_status get_vm_by_name
  simp [h1, h2, h3, h4]

/-- Claim C2, counterexample to the claim as stated: with the new VM
not yet present in the inventory, `create` performs the creation call
and then exactly one start attempt — one `cluster/resources` resolution
query, no task wait, no sleeps and no further attempts — and propagates
`SaltCloudNotFound` instead of retrying up to 5 times with a 5-second
backoff. -/
theorem c2_counterexample :
    create pC2 envEmpty =
      ([.fireEvent "starting create",
        .query (.postCreate "proxmox-node1" "qemu"
          [("vmid", .n 123), ("node", .s "proxmox-node1")]),
        .query .getClusterResources],
        .error (.notFoundByName "my-vm")) := by decide

/-- Witness for `c2_create_starts_once_no_retry` on a profile without a
`technology` key (rendered `None` in the URL, as by the f-string). -/
theorem c2_create_starts_once_no_retry_witness :
    create pC2w envEmpty =
      ([.fireEvent "starting create",
        .query (.postCreate "n2" "None" [("node", .s "n2")]),
        .query .getClusterResources],
        .error (.notFoundByName "w-vm")) :=
  c2_create_starts_once_no_retry envEmpty pC2w [("node", .s "n2")] (.s "n2")
    (by decide) rfl (by decide) (by decide)

/-- Claim C3 (code bug evidence): invoked function-style with a `vmid`
identifying an existing source VM, `clone` resolves the source via the
inventory locator and issues the clone call scoped to the source VM's
node and technology — and that is its entire effect trace: it returns
`ok` immediately after the clone POST, with no task-status polling and
no waiting of any kind (the waiting block in the source is commented
out), although the repository's own unit test `test_clone` asserts that
the task returned by the clone call is waited on. -/
theorem c3_clone_returns_without_wait :
    clone (some "function") (some kwC3) envC3 =
      ([.query .getClusterResources,
        .query (.postClone "node1" "lxc" 123 kwC3)], .ok ()) := by decide

/-- Claim C4 (code bug evidence): with one online location whose
default storage lists three image-type items (`vztmpl`, `images`,
`iso`) and one `backup` item, `avail_images` returns all four items —
the `backup` item included — so no content-type filtering happens,
although the repository's own unit test `test_avail_images` asserts the
`backup` item is excluded and the source carries a TODO admitting the
filter is missing. -/
theorem c4_avail_images_unfiltered :
    avail_images (some "function") none envC4 =
      ([.query .getNodes, .query (.getStorageContent "node1" "local")],
        .ok [("node1", itemsC4.map (fun it => (it.volid, it)))]) := by decide

lemma start_wrong_call (call : Option String) (name : String)
    (kwargs : Option Dict) (env : Env) (h : call ≠ some "action") :
    start call name kwargs env =
      ([], .error (.systemExit "The start action must be called with -a or --action.")) := by
  unfold start
  simp [h]

lemma stop_wrong_call (call : Option String) (name : String)
    (kwargs : Option Dict) (env : Env) (h : call ≠ some "action") :
    stop call name kwargs env =
      ([], .error (.systemExit "The stop action must be called with -a or --action.")) := by
  unfold stop
  simp [h]

lemma shutdown_wrong_call (call : Option String) (name : String)
    (kwargs : Option Dict) (env : Env) (h : call ≠ some "action") :
    shutdown call name kwargs env =
      ([], .error (.systemExit "The shutdown action must be called with -a or --action.")) := by
  unfold shutdown
  simp [h]

lemma destroy_function_call (name : String) (kwargs : Option Dict) (env : Env) :
    destroy (some "function") name kwargs env =
      ([], .error (.systemExit "The destroy action must be called with -d, --destroy, -a or --action.")) := by
  unfold destroy
  simp

lemma reconfigure_function_call (name : String) (kwargs : Option Dict) (env : Env) :
    reconfigure (some "function") name kwargs env =
      ([], .error (.systemExit "The reconfigure action must be called with -d, --destroy, -a or --action.")) := by
  unfold reconfigure
  simp

lemma clone_wrong_call (call : Option String) (kwargs : Option Dict) (env : Env)
    (h : call ≠ some "function") :
    clone call kwargs env =
      ([], .error (.systemExit "The clone function must be called with -f or --function.")) := by
  unfold clone
  simp [h]

lemma show_instance_wrong_call (call : Option String) (name : String) (env : Env)
    (h : call ≠ some "action") :
    show_instance call name env =
      ([], .error (.systemExit "The show_instance action must be called with -a or --action.")) := by
  unfold show_instance
  simp [h]

/-- Claim C6: `destroy` and `reconfigure` invoked function-style, and
`start`/`stop`/`shutdown` invoked with any calling convention other
than action-style, raise a `SaltCloudSystemExit` usage error with an
empty effect trace — i.e. before issuing any remote API call. -/
theorem c6_wrong_convention_rejected_before_any_call :
    (∀ (name : String) (kwargs : Option Dict) (env : Env),
        destroy (some "function") name kwargs env =
          ([], .error (.systemExit "The destroy action must be called with -d, --destroy, -a or --action.")))
    ∧ (∀ (name : String) (kwargs : Option Dict) (env : Env),
        reconfigure (some "function") name kwargs env =
          ([], .error (.systemExit "The reconfigure action must be called with -d, --destroy, -a or --action.")))
    ∧ (∀ (call : Option String) (name : String) (kwargs : Option Dict) (env : Env),
        call ≠ some "action" →
        start call name kwargs env =
          ([], .error (.systemExit "The start action must be called with -a or --action.")))
    ∧ (∀ (call : Option String) (name : String) (kwargs : Option Dict) (env : Env),
        call ≠ some "action" →
        stop call name kwargs env =
          ([], .error (.systemExit "The stop action must be called with -a or --action.")))
    ∧ (∀ (call : Option String) (name : String) (kwargs : Option Dict) (env : Env),
        call ≠ some "action" →
        shutdown call name kwargs env =
          ([], .error (.systemExit "The shutdown action must be called with -a or --action."))) :=
  ⟨destroy_function_call, reconfigure_function_call,
    fun c n k e h => start_wrong_call c n k e h,
    fun c n k e h => stop_wrong_call c n k e h,
    fun c n k e h => shutdown_wrong_call c n k e h⟩

/-- Witness for `c6_wrong_convention_rejected_before_any_call`:
function-style invocations of the five operations all fail with the
usage error and an empty effect trace. -/
theorem c6_wrong_convention_rejected_before_any_call_witness :
    destroy (some "function") "vm1" none envEmpty =
      ([], .error (.systemExit "The destroy action must be called with -d, --destroy, -a or --action."))
    ∧ start (some "function") "vm1" none envEmpty =
      ([], .error (.systemExit "The start action must be called with -a or --action."))
    ∧ stop (some "function") "vm1" none envEmpty =
      ([], .error (.systemExit "The stop action must be called with -a or --action."))
    ∧ shutdown (some "function") "vm1" none envEmpty =
      ([], .error (.systemExit "The shutdown action must be called with -a or --action.")) :=
  ⟨c6_wrong_convention_rejected_before_any_call.1 "vm1" none envEmpty,
    c6_wrong_convention_rejected_before_any_call.2.2.1 (some "function") "vm1" none envEmpty (by decide),
    c6_wrong_convention_rejected_before_any_call.2.2.2.1 (some "function") "vm1" none envEmpty (by decide),
    c6_wrong_convention_rejected_before_any_call.2.2.2.2 (some "function") "vm1" none envEmpty (by decide)⟩

/-- Claim C9: `destroy` and `reconfigure` reject only an explicit
function-style invocation — invoked with no calling-convention argument
at all (`call=None`) they proceed to resolve the VM by name and issue
the remote DELETE/PUT call — whereas `clone` rejects every invocation
that is not function-style and `show_instance`, `start`, `stop` and
`shutdown` reject every invocation that is not action-style, all with
an empty effect trace. -/
theorem c9_call_convention_asymmetry :
    (∀ (name : String) (kwargs : Option Dict) (env : Env) (vm : VM),
        findFirstByName env.inventory name = some vm →
        destroy none name kwargs env =
          ([.fireEvent "destroying instance", .query .getClusterResources,
            .query (.deleteVm vm.node vm.vtype vm.vmid kwargs),
            .fireEvent "destroyed instance"], .ok ()))
    ∧ (∀ (name : String) (kwargs : Option Dict) (env : Env) (vm : VM),
        findFirstByName env.inventory name = some vm →
        reconfigure none name kwargs env =
          ([.query .getClusterResources,
            .query (.putConfig vm.node vm.vtype vm.vmid kwargs)],
            .ok ⟨true, none, "reconfigure"⟩))
    ∧ (∀ (call : Option String) (kwargs : Option Dict) (env : Env),
        call ≠ some "function" →
        clone call kwargs env =
          ([], .error (.systemExit "The clone function must be called with -f or --function.")))
    ∧ (∀ (call : Option String) (name : String) (env : Env),
        call ≠ some "action" →
        show_instance call name env =
          ([], .error (.systemExit "The show_instance action must be called with -a or --action.")))
    ∧ (∀ (call : Option String) (name : String) (kwargs : Option Dict) (env : Env),
        call ≠ some "action" →
        start call name kwargs env = ([], .error (.systemExit "The start action must be called with -a or --action."))
        ∧ stop call name kwargs env = ([], .error (.systemExit "The stop action must be called with -a or --action."))
        ∧ shutdown call name kwargs env = ([], .error (.systemExit "The shutdown action must be called with -a or --action."))) := by
  refine ⟨?_, ?_, ?_, ?_, ?_⟩
  · intro name kwargs env vm h
    unfold destroy get_vm_by_name
    simp [h]
  · intro name kwargs env vm h
    unfold reconfigure get_vm_by_name
    simp [h]
  · intro call kwargs env h
    exact clone_wrong_call call kwargs env h
  · intro call name env h
    exact show_instance_wrong_call call name env h
  · intro call name kwargs env h
    exact ⟨start_wrong_call call name kwargs env h,
      stop_wrong_call call name kwargs env h,
      shutdown_wrong_call call name kwargs env h⟩

/-- Witness for `c9_call_convention_asymmetry`: with the VM present,
`destroy(call=None)` and `reconfigure(call=None)` run through to the
remote call, while action-style `clone` and function-style
`show_instance`/`start` are rejected with no effects. -/
theorem c9_call_convention_asymmetry_witness :
    destroy none "d-vm" none envC9 =
      ([.fireEvent "destroying instance", .query .getClusterResources,
        .query (.deleteVm "n1" "lxc" 100 none), .fireEvent "destroyed instance"], .ok ())
    ∧ reconfigure none "d-vm" none envC9 =
      ([.query .getClusterResources, .query (.putConfig "n1" "lxc" 100 none)],
        .ok ⟨true, none, "reconfigure"⟩)
    ∧ clone (some "action") none envC9 =
      ([], .error (.systemExit "The clone function must be called with -f or --function."))
    ∧ show_instance (some "function") "d-vm" envC9 =
      ([], .error (.systemExit "The show_instance action must be called with -a or --action."))
    ∧ start none "d-vm" none envC9 =
      ([], .error (.systemExit "The start action must be called with -a or --action.")) :=
  ⟨c9_call_convention_asymmetry.1 "d-vm" none envC9 ⟨100, "d-vm", "n1", "lxc", "running"⟩ (by decide),
    c9_call_convention_asymmetry.2.1 "d-vm" none envC9 ⟨100, "d-vm", "n1", "lxc", "running"⟩ (by decide),
    c9_call_convention_asymmetry.2.2.1 (some "action") none envC9 (by decide),
    c9_call_convention_asymmetry.2.2.2.1 (some "function") "d-vm" envC9 (by decide),
    (c9_call_convention_asymmetry.2.2.2.2 none "d-vm" none envC9 (by decide)).1⟩



lemma wait_loop_no_create (resp : Nat → StatusPayload) (vm : VM) (want : String)
    (interval : Nat) :
    ∀ fuel k, ∀ e ∈ (wait_loop resp vm want interval fuel k).1,
      isCreateCall e = false := by
  intro fuel
  induction fuel with
  | zero => intro k e he; simp [wait_loop] at he
  | succ n ih =>
    intro k e he
    by_cases h : (resp k).status = want
    · simp only [wait_loop, h, if_true] at he
      simp at he
      subst he
      rfl
    · simp only [wait_loop, h, if_false, List.mem_cons] at he
      rcases he with rfl | rfl | hm
      · rfl
      · rfl
      · exact ih (k + 1) e hm

lemma set_vm_status_no_create (env : Env) (name status : String)
    (kwargs : Option Dict) :
    ∀ e ∈ (set_vm_status env name status kwargs).1, isCreateCall e = false := by
  unfold set_vm_status get_vm_by_name
  cases findFirstByName env.inventory name with
  | none => intro e he; simp at he; subst he; rfl
  | some vm =>
    intro e he
    simp at he
    rcases he with rfl | rfl <;> rfl

lemma wait_for_vm_status_no_create (env : Env) (name status : String)
    (timeout interval : Nat) :
    ∀ e ∈ (wait_for_vm_status env name status timeout interval).1,
      isCreateCall e = false := by
  unfold wait_for_vm_status get_vm_by_name
  cases findFirstByName env.inventory name with
  | none => intro e he; simp at he; subst he; rfl
  | some vm =>
    intro e he
    simp at he
    rcases he with rfl | hm
    · rfl
    · exact wait_loop_no_create env.statusResponses vm status interval _ 0 e hm

lemma start_no_create (call : Option String) (name : String)
    (kwargs : Option Dict) (env : Env) :
    ∀ e ∈ (start call name kwargs env).1, isCreateCall e = false := by
  unfold start
  by_cases h : call = some "action"
  · simp only [h, ne_eq, not_true_eq_false, if_false]
    cases hs : (set_vm_status env name "start" kwargs).2 with
    | error e0 =>
      simp only [hs]
      exact set_vm_status_no_create env name "start" kwargs
    | ok _ =>
      cases hw : (wait_for_vm_status env name "running" 3000 2).2 with
      | error e0 =>
        simp only [hs, hw]
        intro e he
        rcases List.mem_append.1 he with hm | hm
        · exact set_vm_status_no_create env name "start" kwargs e hm
        · exact wait_for_vm_status_no_create env name "running" 3000 2 e hm
      | ok _ =>
        simp only [hs, hw]
        intro e he
        rcases List.mem_append.1 he with hm | hm
        · exact set_vm_status_no_create env name "start" kwargs e hm
        · exact wait_for_vm_status_no_create env name "running" 3000 2 e hm
  · intro e he
    simp [h] at he

lemma lnf_build_no_create (env : Env) :
    ∀ (l : List VM) (acc : List (String × FullEntry)),
      ∀ e ∈ (lnf_build env l acc).1, isCreateCall e = false := by
  intro l
  induction l with
  | nil => intro acc e he; simp [lnf_build] at he
  | cons vm rest ih =>
    intro acc e he
    simp only [lnf_build, List.mem_cons] at he
    rcases he with rfl | hm
    · rfl
    · exact ih _ e hm


lemma list_nodes_full_none (env : Env) :
    list_nodes_full none env =
      (.query .getClusterResources :: (lnf_build env env.inventory []).1,
        .ok (lnf_build env env.inventory []).2) := by
  unfold list_nodes_full
  simp

lemma show_instance_no_create (call : Option String) (name : String) (env : Env) :
    ∀ e ∈ (show_instance call name env).1, isCreateCall e = false := by
  unfold show_instance
  by_cases h : call = some "action"
  · simp only [h, ne_eq, not_true_eq_false, if_false, list_nodes_full_none]
    cases ha : assocFind (lnf_build env env.inventory []).2 name with
    | none =>
      simp only [ha]
      intro e he
      simp only [List.mem_cons] at he
      rcases he with rfl | hm
      · rfl
      · exact lnf_build_no_create env env.inventory [] e hm
    | some v =>
      simp only [ha]
      intro e he
      simp only [List.mem_cons] at he
      rcases he with rfl | hm
      · rfl
      · exact lnf_build_no_create env env.inventory [] e hm
  · intro e he
    simp [h] at he

lemma clone_no_create (call : Option String) (kwargs : Option Dict) (env : Env) :
    ∀ e ∈ (clone call kwargs env).1, isCreateCall e = false := by
  unfold clone get_vm_by_id
  by_cases h : call = some "function"
  · simp only [h, ne_eq, not_true_eq_false, if_false]
    cases hf : findFirstById env.inventory (dictGet (kwargs.getD []) "vmid") with
    | none => intro e he; simp at he; subst he; rfl
    | some vm =>
      intro e he
      simp at he
      rcases he with rfl | rfl <;> rfl
  · intro e he
    simp [h] at he

lemma forall_no_create_of_all (l : List Eff)
    (h : ∀ e ∈ l, isCreateCall e = false) :
    l.all (fun e => !isCreateCall e) = true := by
  simp only [List.all_eq_true, Bool.not_eq_eq_eq_not, Bool.not_true]
  exact h

/-- Claim C7: for every profile dict with a present and non-empty
`clone` sub-configuration, `create` delegates to the `clone` operation
— its effect trace starts with the `creating` event followed by the
whole trace of `clone(call="function", kwargs=clone_opts)` — and never
issues the direct creation endpoint call (`POST nodes/{node}/{tech}`),
whatever the environment. -/
theorem c7_create_with_clone_never_posts_create (p : Profile) (env : Env)
    (opts : Dict) (h1 : p.clone_opts = some opts) (h2 : opts ≠ []) :
    (create p env).1.all (fun e => !isCreateCall e) = true
    ∧ ∃ rest, (create p env).1 =
        .fireEvent "starting create" :: ((clone (some "function") (some opts) env).1 ++ rest) := by
  have htr : truthyDict p.clone_opts = true := by
    rw [h1]
    simpa [truthyDict] using h2
  have hclB := forall_no_create_of_all _ (clone_no_create (some "function") (some opts) env)
  have hstB := forall_no_create_of_all _ (start_no_create (some "action") p.name none env)
  have hsiB := forall_no_create_of_all _ (show_instance_no_create (some "action") p.name env)
  have hf : ∀ s, (!isCreateCall (Eff.fireEvent s)) = true := fun _ => rfl
  have hb : (!isCreateCall Eff.bootstrap) = true := rfl
  unfold create
  rw [htr, h1]
  simp only [if_true]
  cases hc : (clone (some "function") (some opts) env).2 with
  | error e =>
    simp only [hc]
    refine ⟨?_, [], by simp⟩
    simp only [List.all_append, List.all_cons, List.all_nil, hclB, hf,
      Bool.and_true, Bool.true_and]
  | ok _ =>
    cases hs : (start (some "action") p.name none env).2 with
    | error e =>
      simp only [hc, hs]
      refine ⟨?_, (start (some "action") p.name none env).1, by simp⟩
      simp only [List.all_append, List.all_cons, List.all_nil, hclB, hstB, hf,
        Bool.and_true, Bool.true_and]
    | ok _ =>
      cases hsi2 : (show_instance (some "action") p.name env).2 with
      | error e =>
        simp only [hc, hs, hsi2]
        refine ⟨?_, (start (some "action") p.name none env).1 ++ [.bootstrap]
          ++ (show_instance (some "action") p.name env).1, by simp⟩
        simp only [List.all_append, List.all_cons, List.all_nil, hclB, hstB,
          hsiB, hf, hb, Bool.and_true, Bool.true_and]
      | ok _ =>
        simp only [hc, hs, hsi2]
        refine ⟨?_, (start (some "action") p.name none env).1 ++ [.bootstrap]
          ++ (show_instance (some "action") p.name env).1
          ++ [.fireEvent "created instance"], by simp⟩
        simp only [List.all_append, List.all_cons, List.all_nil, hclB, hstB,
          hsiB, hf, hb, Bool.and_true, Bool.true_and]

/-- Witness for `c7_create_with_clone_never_posts_create` on a concrete
clone-style profile: the trace carries no direct-creation POST and
embeds the clone call's trace. -/
theorem c7_create_with_clone_never_posts_create_witness :
    (create pC7 envEmpty).1.all (fun e => !isCreateCall e) = true
    ∧ ∃ rest, (create pC7 envEmpty).1 =
        .fireEvent "starting create" :: ((clone (some "function") (some [("vmid", .n 7)]) envEmpty).1 ++ rest) :=
  c7_create_with_clone_never_posts_create pC7 envEmpty [("vmid", .n 7)] rfl (by decide)

lemma parse_loop_bound_ok :
    ∀ (l : List String) (priv pub : List String) (b : Option String),
      ∃ r, parse_loop l priv pub (some b) = .ok r := by
  intro l
  induction l with
  | nil => intro priv pub b; exact ⟨(priv, pub), rfl⟩
  | cons v rest ih =>
    intro priv pub b
    cases hd : stringlist_to_dictionary v with
    | error e =>
      simpa [parse_loop, hd] using ih priv pub b
    | ok items =>
      cases hip : ip_interface (pyDictGet items "ip") with
      | error e =>
        simpa [parse_loop, hd, hip] using ih priv pub (pyDictGet items "ip")
      | ok ip =>
        cases hp : isPrivateIpv4 ip with
        | true =>
          simpa [parse_loop, hd, hip, hp] using
            ih (priv ++ [ipv4Str ip]) pub (pyDictGet items "ip")
        | false =>
          simpa [parse_loop, hd, hip, hp] using
            ih priv (pub ++ [ipv4Str ip]) (pyDictGet items "ip")

/-- Claim C8 (amended): IP extraction scans values of `net`-prefixed
keys for container (`lxc`) configs and `ipconfig`-prefixed keys for
full-VM configs, parses each entry's `ip` field as a CIDR address and
classifies it private (e.g. 192.168.1.10) or public
(e.g. 200.200.200.200) by the standard private-address ranges; an entry
whose `ip` field is not a valid address (e.g. 192.168.500.2) is logged
and skipped without raising — but an escaping error does reach the
caller in exactly one situation: when the first scanned entry is not a
well-formed comma-separated `key=value` list, the handler's log call
touches the still-unbound local and an `UnboundLocalError` propagates
(later such entries are logged with a stale value and skipped). -/
theorem c8_parse_ips_classification_and_escape :
    (∀ (cfg : List (String × String)) (ty : String),
        parseIpsRaises cfg ty = firstScanBad (scan_values cfg ty))
    ∧ parse_ips qemuCfg "qemu" = .ok (["192.168.1.10"], ["200.200.200.200"])
    ∧ parse_ips lxcCfg "lxc" = .ok (["192.168.1.10"], ["200.200.200.200"])
    ∧ parse_ips invalidCfg "lxc" = .ok ([], []) := by
  refine ⟨?_, by decide, by decide, by decide⟩
  intro cfg ty
  unfold parseIpsRaises parse_ips
  cases hsc : scan_values cfg ty with
  | nil => simp [parse_loop, firstScanBad]
  | cons v rest =>
    cases hd : stringlist_to_dictionary v with
    | error e => simp [parse_loop, hd, firstScanBad]
    | ok items =>
      cases hip : ip_interface (pyDictGet items "ip") with
      | error e =>
        obtain ⟨r, hr⟩ := parse_loop_bound_ok rest [] [] (pyDictGet items "ip")
        simp [parse_loop, hd, hip, hr, firstScanBad]
      | ok ip =>
        cases hp : isPrivateIpv4 ip with
        | true =>
          obtain ⟨r, hr⟩ := parse_loop_bound_ok rest [ipv4Str ip] [] (pyDictGet items "ip")
          simp [parse_loop, hd, hip, hp, hr, firstScanBad]
        | false =>
          obtain ⟨r, hr⟩ := parse_loop_bound_ok rest [] [ipv4Str ip] (pyDictGet items "ip")
          simp [parse_loop, hd, hip, hp, hr, firstScanBad]

/-- Claim C8, counterexample to the claim as stated: a config whose
first (and only) scanned entry is not a `key=value` list is malformed,
yet `_parse_ips` does not log-and-skip it — the `except ValueError`
handler evaluates the unassigned local `ip_with_netmask` and an
`UnboundLocalError` escapes to the caller. -/
theorem c8_counterexample :
    parse_ips [("net0", "garbage")] "lxc" = .error () := by decide

lemma assocFind_insertOverwrite (m : List (String × FullEntry)) (k : String)
    (v : FullEntry) (k' : String) :
    assocFind (insertOverwrite m k v) k' =
      if k = k' then some v else assocFind m k' := by
  induction m with
  | nil =>
    by_cases h : k = k'
    · simp [insertOverwrite, assocFind, h]
    · simp only [insertOverwrite, assocFind, List.find?]
      have hb : ((k, v).1 == k') = false := by simp [h]
      simp [hb, h]
  | cons kv rest ih =>
    obtain ⟨k0, v0⟩ := kv
    by_cases h0 : k0 = k
    · subst h0
      by_cases h : k0 = k'
      · simp [insertOverwrite, assocFind, List.find?, h]
      · simp only [insertOverwrite, if_pos rfl]
        have hb : ((k0, v).1 == k') = false := by simp [h]
        have hb0 : ((k0, v0).1 == k') = false := by simp [h]
        simp [assocFind, List.find?, hb, hb0, h]
    · simp only [insertOverwrite, if_neg h0]
      by_cases h : k0 = k'
      · subst h
        rw [if_neg (fun hk => h0 hk.symm)]
        simp [assocFind, List.find?]
      · have hb0 : ((k0, v0).1 == k') = false := by simp [h]
        simp only [assocFind, List.find?, hb0]
        simpa [assocFind] using ih

lemma findFirstByName_append (a b : List VM) (name : String) :
    findFirstByName (a ++ b) name =
      (match findFirstByName a name with
       | some vm => some vm
       | none => findFirstByName b name) := by
  induction a with
  | nil => simp [findFirstByName]
  | cons vm rest ih =>
    by_cases h : vm.name = name
    · simp [findFirstByName, h]
    · simp [findFirstByName, h, ih]

lemma lnf_lookup (env : Env) :
    ∀ (l : List VM) (acc : List (String × FullEntry)) (name : String),
      assocFind (lnf_build env l acc).2 name =
        (match findFirstByName l.reverse name with
         | some vm => some (vm, env.configs vm.vmid)
         | none => assocFind acc name) := by
  intro l
  induction l with
  | nil => intro acc name; simp [lnf_build, findFirstByName]
  | cons vm rest ih =>
    intro acc name
    have step : (lnf_build env (vm :: rest) acc).2 =
        (lnf_build env rest (insertOverwrite acc vm.name (vm, env.configs vm.vmid))).2 := rfl
    rw [step, ih]
    rw [List.reverse_cons, findFirstByName_append]
    cases hr : findFirstByName rest.reverse name with
    | some x => simp
    | none =>
      simp only []
      rw [assocFind_insertOverwrite]
      by_cases h : vm.name = name
      · simp [findFirstByName, h]
      · simp [findFirstByName, h]

lemma show_instance_action (env : Env) (name : String) :
    (show_instance (some "action") name env).2 =
      (match findFirstByName env.inventory.reverse name with
       | some vm => .ok (vm, env.configs vm.vmid)
       | none => .error (.notFoundByName name)) := by
  unfold show_instance
  simp only [ne_eq, not_true_eq_false, if_false, list_nodes_full_none]
  have := lnf_lookup env env.inventory [] name
  cases hr : findFirstByName env.inventory.reverse name with
  | some vm =>
    rw [hr] at this
    simp only [] at this
    simp [this]
  | none =>
    rw [hr] at this
    have this2 : assocFind (lnf_build env env.inventory []).2 name = none := this.trans rfl
    simp [this2]

/-- Claim C10: node enumeration keys entries by VM name, so with
duplicated names the later inventory entry overwrites the earlier one
in `list_nodes_full` and hence in `show_instance` (the last match in
listing order wins), while the by-name resolution used by
start/stop/shutdown/destroy/reconfigure returns the first match — and
on a concrete inventory with two VMs named `dup` the two paths
designate different VMs (vmid 200 versus vmid 100). -/
theorem c10_duplicate_names_resolve_differently :
    (∀ (env : Env) (name : String),
        (show_instance (some "action") name env).2 =
          (match env.inventory.reverse.find? (fun vm => vm.name == name) with
           | some vm => .ok (vm, env.configs vm.vmid)
           | none => .error (.notFoundByName name)))
    ∧ (∀ (env : Env) (name : String),
        (get_vm_by_name env name).2 =
          (match env.inventory.find? (fun vm => vm.name == name) with
           | some vm => .ok vm
           | none => .error (.notFoundByName name)))
    ∧ (show_instance (some "action") "dup" envDup).2 =
        .ok (⟨200, "dup", "n2", "qemu", "stopped"⟩, [])
    ∧ (get_vm_by_name envDup "dup").2 =
        .ok ⟨100, "dup", "n1", "lxc", "running"⟩ := by
  refine ⟨?_, ?_, by decide, by decide⟩
  · intro env name
    rw [show_instance_action, ← findFirstByName_eq_find?]
  · intro env name
    unfold get_vm_by_name
    rw [findFirstByName_eq_find?]
